import Mathlib

/-!
Verification of the block-device abstraction layer (`lib/bdev.py`).

The Python module drives external tools (`lvm`, `drbdsetup`, `drbdmeta`,
`blockdev`) and parses their textual output.  The shallow embedding below
models each command result as a `CmdResult` (captured `failed` flag and
standard output), the DRBD kernel environment as explicit oracle
structures, and translates the decision logic of the source functions
into executable Lean definitions.  Machine integers are modelled as
`Nat`/`Int` (Python integers are unbounded); the floating-point
free-space figures parsed from the listing tool are modelled exactly as
the decimal values the tools emit (`PyFloat`), and sync percents as `ℚ`.
-/

namespace Bdev

/-- Result of running an external command through the invoker
(`utils.RunCmd`): the `failed` flag (exit code not zero) and the captured
standard output. -/
structure CmdResult where
  failed : Bool
  stdout : String
deriving DecidableEq, Repr

/-- Numeric value of a list of decimal digit characters. -/
def natOfDigits (ds : List Char) : Nat :=
  ds.foldl (fun a c => a * 10 + (c.toNat - 48)) 0

/-- Drop leading space characters (the regex fragment matching zero or more
spaces at the start of a line). -/
def dropSpaces : List Char → List Char
  | ' ' :: rest => dropSpaces rest
  | l => l

/-- Match the common prefix of the per-minor status patterns of
`DRBD8._FindUnusedMinor` and `BaseDRBD._GetUsedDevs`: leading spaces, a
digit group, then the literal characters of a colon, a space, and the
cs marker.  Returns the minor number and the remaining characters. -/
def procLineMinor (line : String) : Option (Nat × List Char) :=
  let l := dropSpaces line.data
  let ds := l.takeWhile Char.isDigit
  let rest := l.dropWhile Char.isDigit
  if ds.isEmpty then none
  else if (": cs:".data).isPrefixOf rest then some (natOfDigits ds, rest.drop 5)
  else none

/-- `DRBD8._FindUnusedMinor` scan loop: per line, first test the
full-match pattern for an Unconfigured minor (return it at once),
otherwise record the minor of any line matching the used-device pattern
into the running maximum (Python `max(None, m) = m`). -/
def findUnusedMinorGo : List String → Option Nat → Except String Nat
  | [], highest =>
    match highest with
    | none => Except.ok 0
    | some h => if 255 ≤ h then Except.error "out-of-minors" else Except.ok (h + 1)
  | line :: rest, highest =>
    match procLineMinor line with
    | none => findUnusedMinorGo rest highest
    | some (m, s) =>
      if s = "Unconfigured".data then Except.ok m
      else
        findUnusedMinorGo rest
          (some (match highest with | none => m | some h => max h m))

/-- `DRBD8._FindUnusedMinor`: find an unused DRBD minor from the lines of
the kernel status file, raising (modelled as `Except.error`) when all 255
minors are taken. -/
def FindUnusedMinor (data : List String) : Except String Nat :=
  findUnusedMinorGo data none

/-- Spec-side reading: the minor of a line whose connection state is
exactly `Unconfigured`. -/
def lineUnconfigured (line : String) : Option Nat :=
  match procLineMinor line with
  | some (m, s) => if s = "Unconfigured".data then some m else none
  | none => none

/-- Spec-side reading: the minor of any line matching the used-device
pattern. -/
def lineUsedMinor (line : String) : Option Nat :=
  (procLineMinor line).map Prod.fst

/-- Maximum of an optional running maximum and a new minor. -/
def optMaxN : Option Nat → Nat → Nat
  | none, m => m
  | some h, m => max h m

/-- Largest used minor over the given lines, starting from `acc`. -/
def highestFrom (acc : Option Nat) (data : List String) : Option Nat :=
  data.foldl
    (fun a l =>
      match lineUsedMinor l with
      | none => a
      | some m => some (optMaxN a m)) acc

/-- Largest minor appearing on any used-device line. -/
def highestUsed (data : List String) : Option Nat :=
  highestFrom none data

/-- Minor of the first line whose connection state is `Unconfigured`. -/
def firstUnconfigured (data : List String) : Option Nat :=
  data.findSome? lineUnconfigured

theorem findUnusedMinorGo_eq (data : List String) :
    ∀ acc, findUnusedMinorGo data acc =
      match firstUnconfigured data with
      | some m => Except.ok m
      | none =>
        match highestFrom acc data with
        | none => Except.ok 0
        | some h =>
          if 255 ≤ h then Except.error "out-of-minors" else Except.ok (h + 1) := by
  induction data with
  | nil => intro acc; rfl
  | cons line rest ih =>
    intro acc
    rcases hp : procLineMinor line with _ | ⟨m, s⟩
    · have h1 : firstUnconfigured (line :: rest) = firstUnconfigured rest := by
        simp [firstUnconfigured, List.findSome?_cons, lineUnconfigured, hp]
      have h2 : highestFrom acc (line :: rest) = highestFrom acc rest := by
        simp [highestFrom, lineUsedMinor, hp]
      rw [h1, h2]
      show findUnusedMinorGo (line :: rest) acc = _
      rw [findUnusedMinorGo, hp]
      exact ih acc
    · by_cases hu : s = "Unconfigured".data
      · have h1 : firstUnconfigured (line :: rest) = some m := by
          simp [firstUnconfigured, List.findSome?_cons, lineUnconfigured, hp, hu]
        rw [h1]
        show findUnusedMinorGo (line :: rest) acc = _
        rw [findUnusedMinorGo, hp]
        simp [hu]
      · have h1 : firstUnconfigured (line :: rest) = firstUnconfigured rest := by
          simp [firstUnconfigured, List.findSome?_cons, lineUnconfigured, hp, hu]
        have h2 : highestFrom acc (line :: rest) =
            highestFrom (some (optMaxN acc m)) rest := by
          simp [highestFrom, lineUsedMinor, hp]
        rw [h1, h2]
        have key : findUnusedMinorGo (line :: rest) acc
            = findUnusedMinorGo rest (some (optMaxN acc m)) := by
          cases acc <;>
          · rw [findUnusedMinorGo, hp]
            simp [hu, optMaxN]
        rw [key]
        exact ih _

/-- C2: for every kernel status content, minor allocation returns the
minor of the first `Unconfigured` line; otherwise `highest_used + 1`
where `highest_used` is the largest minor on any used-device line,
failing when `highest_used` is at least 255, and returning 0 when no
minors appear; including the three boundary scenarios of the spec. -/
theorem c2_minor_allocation :
    (∀ data : List String,
      FindUnusedMinor data =
        match firstUnconfigured data with
        | some m => Except.ok m
        | none =>
          match highestUsed data with
          | none => Except.ok 0
          | some h =>
            if 255 ≤ h then Except.error "out-of-minors"
            else Except.ok (h + 1)) ∧
    FindUnusedMinor
      [" 0: cs:Connected st:Primary/Secondary ds:UpToDate/UpToDate",
       " 1: cs:WFConnection st:Secondary/Unknown ds:UpToDate/DUnknown",
       " 2: cs:Unconfigured",
       " 3: cs:Connected st:Secondary/Primary ds:UpToDate/UpToDate"] =
      Except.ok 2 ∧
    FindUnusedMinor
      [" 0: cs:Connected st:Primary/Secondary ds:UpToDate/UpToDate",
       " 254: cs:Connected st:Secondary/Primary ds:UpToDate/UpToDate"] =
      Except.ok 255 ∧
    FindUnusedMinor [" 255: cs:Connected st:Primary/Secondary"] =
      Except.error "out-of-minors" := by
  refine ⟨fun data => findUnusedMinorGo_eq data none, ?_, ?_, ?_⟩ <;> rfl

/-- Python whitespace strip of a string, as a character list. -/
def pyStrip (s : String) : List Char :=
  ((s.data.dropWhile Char.isWhitespace).reverse.dropWhile
    Char.isWhitespace).reverse

/-- Python `int()` conversion of a string: optional surrounding
whitespace, an optional sign, then decimal digits; `none` models the
`ValueError` branch. -/
def pyInt (s : String) : Option Int :=
  match pyStrip s with
  | '-' :: ds =>
    if !ds.isEmpty && ds.all Char.isDigit then some (-(natOfDigits ds : Int))
    else none
  | '+' :: ds =>
    if !ds.isEmpty && ds.all Char.isDigit then some (natOfDigits ds : Int)
    else none
  | ds =>
    if !ds.isEmpty && ds.all Char.isDigit then some (natOfDigits ds : Int)
    else none

/-- `BaseDRBD._CheckMetaSize`: validate a metadata device from the
result of `blockdev --getsize`; the sector count times 512 must lie
between 128 MiB and (128+32) MiB. -/
def CheckMetaSize (res : CmdResult) : Bool :=
  if res.failed then false
  else
    match pyInt res.stdout with
    | none => false
    | some sectors =>
      if sectors * 512 < 128 * 1024 * 1024 then false
      else if (128 + 32) * 1024 * 1024 < sectors * 512 then false
      else true

/-- C8: metadata size validation accepts exactly the devices whose
`blockdev --getsize` output parses to a sector count with
128 MiB ≤ sectors·512 ≤ 160 MiB; boundary values 128 MiB and 160 MiB are
accepted, 127 MiB and 161 MiB rejected, and a failed or non-integer size
query is rejected. -/
theorem c8_meta_size_validation :
    (∀ res : CmdResult,
      CheckMetaSize res = true ↔
        (res.failed = false ∧ ∃ sectors : Int,
          pyInt res.stdout = some sectors ∧
          128 * 1024 * 1024 ≤ sectors * 512 ∧
          sectors * 512 ≤ 160 * 1024 * 1024)) ∧
    CheckMetaSize ⟨false, "262144"⟩ = true ∧
    CheckMetaSize ⟨false, "327680"⟩ = true ∧
    CheckMetaSize ⟨false, "260096"⟩ = false ∧
    CheckMetaSize ⟨false, "329728"⟩ = false ∧
    (∀ s, CheckMetaSize ⟨true, s⟩ = false) ∧
    (∀ s, pyInt s = none → CheckMetaSize ⟨false, s⟩ = false) := by
  refine ⟨?_, by rfl, by rfl, by rfl, by rfl, fun s => rfl, ?_⟩
  · rintro ⟨fl, out⟩
    cases fl
    · rcases hp : pyInt out with _ | sectors
      · simp [CheckMetaSize, hp]
      · have hcf : CheckMetaSize ⟨false, out⟩
            = (if sectors * 512 < 128 * 1024 * 1024 then false
               else if (128 + 32) * 1024 * 1024 < sectors * 512 then false
               else true) := by
          unfold CheckMetaSize
          simp only [hp]
          rfl
        rw [hcf]
        constructor
        · intro h
          split_ifs at h with h1 h2
          · exact ⟨rfl, sectors, rfl, by omega, by omega⟩
        · rintro ⟨-, s, hs, hl, hr⟩
          obtain rfl : s = sectors := (Option.some.inj hs).symm
          rw [if_neg (by omega), if_neg (by omega)]
    · simp [CheckMetaSize]
  · intro s hs
    unfold CheckMetaSize
    simp [hs]

/-- Witness for `c8_meta_size_validation`: the non-integer output branch
at a concrete string. -/
theorem c8_meta_size_validation_witness :
    CheckMetaSize ⟨false, "52428800KB"⟩ = false :=
  c8_meta_size_validation.2.2.2.2.2.2 "52428800KB" rfl

/-- First-character class `[A-Za-z0-9_+.]` of the tag sanitizer in
`LogicalVolume.SetInfo`. -/
def firstCharOk (c : Char) : Bool :=
  ('A' ≤ c && c ≤ 'Z') || ('a' ≤ c && c ≤ 'z') || ('0' ≤ c && c ≤ '9') ||
    c == '_' || c == '+' || c == '.'

/-- Remaining-character class `[-A-Za-z0-9_+.]` of the tag sanitizer. -/
def restCharOk (c : Char) : Bool :=
  c == '-' || firstCharOk c

/-- The tag transformation of `LogicalVolume.SetInfo`: substitute the
first character when outside its class, substitute every character
outside the wider class, then keep only the first 128 characters. -/
def SetInfoTag (text : String) : String :=
  String.mk
    (((match text.data with
       | [] => ([] : List Char)
       | c :: cs => (if firstCharOk c then c else '_') :: cs).map
      (fun c => if restCharOk c then c else '_')).take 128)

/-- The sanitizer as the spec words it: first character replaced when
outside `[A-Za-z0-9_+.]`, every remaining character outside
`[-A-Za-z0-9_+.]` replaced, result truncated to 128 characters. -/
def setInfoTagSpec (text : String) : String :=
  String.mk
    ((match text.data with
      | [] => ([] : List Char)
      | c :: cs =>
        (if firstCharOk c then c else '_') ::
          cs.map (fun c => if restCharOk c then c else '_')).take 128)

/-- C9: the tag sanitizer agrees with the spec description on every
input, maps the two example strings as stated, and produces a
128-character tag from any 200-character input. -/
theorem c9_tag_sanitizer :
    (∀ text : String, SetInfoTag text = setInfoTagSpec text) ∧
    SetInfoTag "foo bar" = "foo_bar" ∧
    SetInfoTag " lead" = "_lead" ∧
    (∀ text : String, text.length = 200 → (SetInfoTag text).length = 128) := by
  have hmain : ∀ a : Char,
      (if restCharOk (if firstCharOk a then a else '_')
        then (if firstCharOk a then a else '_') else '_')
      = (if firstCharOk a then a else '_') := by
    intro a
    by_cases hc : firstCharOk a = true
    · have hr : restCharOk a = true := by
        unfold restCharOk
        rw [hc, Bool.or_true]
      rw [if_pos hc, if_pos hr]
    · rw [if_neg hc, ite_self]
  refine ⟨?_, by rfl, by rfl, ?_⟩
  · intro text
    unfold SetInfoTag setInfoTagSpec
    rcases hd : text.data with _ | ⟨c, cs⟩
    · rfl
    · simp only [List.map_cons]
      rw [hmain c]
  · intro text hlen
    have hdata : text.data.length = 200 := hlen
    unfold SetInfoTag
    have hlen2 : ∀ l : List Char, (String.mk l).length = l.length := fun l => rfl
    rw [hlen2]
    rcases hd : text.data with _ | ⟨c, cs⟩
    · rw [hd] at hdata; simp at hdata
    · rw [hd] at hdata
      simp only [List.length_take, List.length_map, List.length_cons]
      simp only [List.length_cons] at hdata
      omega

set_option maxRecDepth 4000 in
/-- Witness for `c9_tag_sanitizer`: a concrete 200-character input. -/
theorem c9_tag_sanitizer_witness :
    (SetInfoTag (String.mk (List.replicate 200 'x'))).length = 128 :=
  c9_tag_sanitizer.2.2.2 (String.mk (List.replicate 200 'x')) (by decide)

/-- The four-tuple returned by `GetSyncStatus`: sync percent (a Python
float, modelled as `ℚ`), estimated time in seconds, the degradation flag
and the local-disk degradation flag.  `none` models Python `None`. -/
structure SyncStatus where
  sync_percent : Option ℚ
  est_time : Option Nat
  is_degraded : Bool
  ldisk : Bool
deriving DecidableEq, Repr

/-- One step of the accumulation loop in `BlockDev.CombinedSyncStatus`:
the running minimum percent takes the child value when absent and
otherwise the element-wise minimum when the child value is present;
dually for the maximum time; the two flags are or-ed. -/
def syncCombine (acc c : SyncStatus) : SyncStatus where
  sync_percent :=
    match acc.sync_percent with
    | none => c.sync_percent
    | some x =>
      match c.sync_percent with
      | none => some x
      | some y => some (min x y)
  est_time :=
    match acc.est_time with
    | none => c.est_time
    | some x =>
      match c.est_time with
      | none => some x
      | some y => some (max x y)
  is_degraded := acc.is_degraded || c.is_degraded
  ldisk := acc.ldisk || c.ldisk

/-- A device tree in which every node carries the sync status its
`GetSyncStatus` reports. -/
inductive SyncTree where
  | node : SyncStatus → List SyncTree → SyncTree

/-- The status of the root node. -/
def SyncTree.status : SyncTree → SyncStatus
  | node s _ => s

/-- The children of the root node. -/
def SyncTree.childList : SyncTree → List SyncTree
  | node _ cs => cs

/-- `BlockDev.CombinedSyncStatus`: start from the device's own
`GetSyncStatus` and fold in the `GetSyncStatus` of each direct child in
list order. -/
def CombinedSyncStatus (t : SyncTree) : SyncStatus :=
  (t.childList.map SyncTree.status).foldl syncCombine t.status

mutual

/-- All per-node statuses of a tree, root first (preorder). -/
def SyncTree.allStatuses : SyncTree → List SyncStatus
  | .node s cs => s :: allStatusesList cs

/-- All per-node statuses of a forest, in order. -/
def allStatusesList : List SyncTree → List SyncStatus
  | [] => []
  | t :: ts => t.allStatuses ++ allStatusesList ts

end

/-- The neutral status: no percent, no time, no degradation. -/
def emptySyncStatus : SyncStatus := ⟨none, none, false, false⟩

/-- The fold across the whole tree of per-node sync statuses, as the
spec words the aggregation. -/
def treeFoldSyncStatus (t : SyncTree) : SyncStatus :=
  t.allStatuses.foldl syncCombine emptySyncStatus

theorem syncCombine_empty (s : SyncStatus) :
    syncCombine emptySyncStatus s = s := by
  rcases s with ⟨p, t, d, l⟩
  unfold syncCombine emptySyncStatus
  simp

/-- C4 counterexample: on a three-level tree the implementation folds
only the direct children, so the grandchild's status (30%, 600 s,
degraded) is ignored, while the fold across the whole tree picks it up:
the two disagree. -/
theorem c4_counterexample :
    CombinedSyncStatus
        (SyncTree.node ⟨none, none, false, false⟩
          [SyncTree.node ⟨none, none, false, false⟩
            [SyncTree.node ⟨some 30, some 600, true, false⟩ []]])
      = ⟨none, none, false, false⟩ ∧
    treeFoldSyncStatus
        (SyncTree.node ⟨none, none, false, false⟩
          [SyncTree.node ⟨none, none, false, false⟩
            [SyncTree.node ⟨some 30, some 600, true, false⟩ []]])
      = ⟨some 30, some 600, true, false⟩ ∧
    CombinedSyncStatus
        (SyncTree.node ⟨none, none, false, false⟩
          [SyncTree.node ⟨none, none, false, false⟩
            [SyncTree.node ⟨some 30, some 600, true, false⟩ []]])
      ≠ treeFoldSyncStatus
        (SyncTree.node ⟨none, none, false, false⟩
          [SyncTree.node ⟨none, none, false, false⟩
            [SyncTree.node ⟨some 30, some 600, true, false⟩ []]]) := by
  refine ⟨rfl, rfl, ?_⟩
  intro h
  have h30 : (none : Option ℚ) = some 30 := congrArg SyncStatus.sync_percent h
  exact Option.noConfusion h30

/-- C4 amended: `combined_sync_status` equals the fold across the
statuses of the device itself and its direct children only (first
non-absent percent wins, thereafter element-wise min; first non-absent
ETA wins, thereafter element-wise max; flags or-ed), and the two-child
example of the spec combines to (30%, 600, true, false). -/
theorem c4_sync_aggregation :
    (∀ (s : SyncStatus) (cs : List SyncTree),
      CombinedSyncStatus (SyncTree.node s cs)
        = (s :: cs.map SyncTree.status).foldl syncCombine emptySyncStatus) ∧
    CombinedSyncStatus
        (SyncTree.node ⟨none, none, false, false⟩
          [SyncTree.node ⟨some 30, some 600, false, false⟩ [],
           SyncTree.node ⟨some 70, some 300, true, false⟩ []])
      = ⟨some 30, some 600, true, false⟩ := by
  constructor
  · intro s cs
    show (cs.map SyncTree.status).foldl syncCombine s = _
    rw [List.foldl_cons, syncCombine_empty]
  · show syncCombine (syncCombine ⟨none, none, false, false⟩
      ⟨some 30, some 600, false, false⟩) ⟨some 70, some 300, true, false⟩ = _
    unfold syncCombine
    norm_num

/-- Behaviour of one child during the default assemble recursion:
whether its `Assemble` returns true, and whether its `Open` raises
`BlockDeviceError`. -/
structure ChildSpec where
  assembleOk : Bool
  openErr : Bool
deriving DecidableEq, Repr

/-- Calls issued to children during `BlockDev.Assemble`, identified by
child position. -/
inductive AsmEvent where
  | assembleCall : Nat → AsmEvent
  | openCall : Nat → AsmEvent
  | shutdownCall : Nat → AsmEvent
deriving DecidableEq, Repr

/-- The cleanup loop `for child in self._children: child.Shutdown()`:
shuts down every child, in forward list order. -/
def shutdownAllEvents (n : Nat) : List AsmEvent :=
  (List.range n).map AsmEvent.shutdownCall

/-- The child loop of `BlockDev.Assemble` from position `i`: assemble
the child (recording the call), on failure shut down all children and
return false; otherwise open it, and when `Open` raises (outcome
`none`), shut down all children and re-raise. -/
def assembleGo (n : Nat) : List ChildSpec → Nat → List AsmEvent × Option Bool
  | [], _ => ([], some true)
  | c :: cs, i =>
    if c.assembleOk then
      if c.openErr then
        (AsmEvent.assembleCall i :: AsmEvent.openCall i :: shutdownAllEvents n,
         none)
      else
        (AsmEvent.assembleCall i :: AsmEvent.openCall i
            :: (assembleGo n cs (i + 1)).1,
         (assembleGo n cs (i + 1)).2)
    else
      (AsmEvent.assembleCall i :: shutdownAllEvents n, some false)

/-- The dynamic kernel identity of a device (`dev_path` and `minor`
fields of `BlockDev`), both absent until attached. -/
structure DevIdent where
  dev_path : Option String
  minor : Option Nat
deriving DecidableEq, Repr

/-- `BlockDev.Assemble` (default implementation): recurse into the
children in order; the device's own identity fields are never written.
Returns the (unchanged) identity, the trace of child calls, and the
outcome: `some status` for a normal return, `none` when a child's
`Open` raised `BlockDeviceError`. -/
def Assemble (self : DevIdent) (children : List ChildSpec) :
    DevIdent × List AsmEvent × Option Bool :=
  (self, assembleGo children.length children 0)

/-- Trace of a run of `k` healthy children starting at position `i`:
each is assembled then opened. -/
def goodEventsFrom (i : Nat) : Nat → List AsmEvent
  | 0 => []
  | k + 1 =>
    AsmEvent.assembleCall i :: AsmEvent.openCall i :: goodEventsFrom (i + 1) k

theorem assembleGo_good_prefix (n : Nat) (rest : List ChildSpec) :
    ∀ (pre : List ChildSpec) (i : Nat),
      (∀ x ∈ pre, x.assembleOk = true ∧ x.openErr = false) →
      assembleGo n (pre ++ rest) i
        = (goodEventsFrom i pre.length ++ (assembleGo n rest (i + pre.length)).1,
           (assembleGo n rest (i + pre.length)).2) := by
  intro pre
  induction pre with
  | nil => intro i h; simp [goodEventsFrom]
  | cons c pre ih =>
    intro i h
    obtain ⟨hca, hco⟩ := h c (List.mem_cons_self c pre)
    have hrec := ih (i + 1) (fun x hx => h x (List.mem_cons_of_mem c hx))
    show assembleGo n (c :: (pre ++ rest)) i = _
    rw [assembleGo, if_pos hca, if_neg (by simp [hco]), hrec]
    have hidx : i + 1 + pre.length = i + (pre.length + 1) := by omega
    simp [goodEventsFrom, hidx]

/-- C3: during the default assemble, children are processed in list
order (assemble then open).  When the child at position `|pre|` fails
its assemble, the trace is the healthy prefix, that failing assemble
call, then a shutdown of every child in forward list order, and the
outcome is `false`; when instead its open raises, the open call is
traced and the shutdown sweep precedes the re-raise (outcome `none`).
In both cases the device's own `dev_path`/`minor` are returned
unchanged (in particular they remain absent). -/
theorem c3_assemble_rollback :
    ∀ (self : DevIdent) (pre : List ChildSpec) (c : ChildSpec)
      (post : List ChildSpec),
      (∀ x ∈ pre, x.assembleOk = true ∧ x.openErr = false) →
      (c.assembleOk = false →
        Assemble self (pre ++ c :: post)
          = (self,
             goodEventsFrom 0 pre.length
               ++ AsmEvent.assembleCall pre.length
               :: shutdownAllEvents (pre ++ c :: post).length,
             some false)) ∧
      (c.assembleOk = true → c.openErr = true →
        Assemble self (pre ++ c :: post)
          = (self,
             goodEventsFrom 0 pre.length
               ++ AsmEvent.assembleCall pre.length
               :: AsmEvent.openCall pre.length
               :: shutdownAllEvents (pre ++ c :: post).length,
             none)) := by
  intro self pre c post hpre
  have hgo := assembleGo_good_prefix (pre ++ c :: post).length (c :: post) pre 0 hpre
  constructor
  · intro hfail
    unfold Assemble
    rw [hgo]
    rw [assembleGo, if_neg (by simp [hfail])]
    simp
  · intro hok herr
    unfold Assemble
    rw [hgo]
    rw [assembleGo, if_pos hok, if_pos herr]
    simp

/-- Witness for `c3_assemble_rollback`: a two-child device whose second
child's assemble fails; the first child is assembled and opened, then
both children are shut down in forward order and false is returned. -/
theorem c3_assemble_rollback_witness :
    Assemble ⟨none, none⟩ [⟨true, false⟩, ⟨false, false⟩]
      = (⟨none, none⟩,
         [AsmEvent.assembleCall 0, AsmEvent.openCall 0,
          AsmEvent.assembleCall 1,
          AsmEvent.shutdownCall 0, AsmEvent.shutdownCall 1],
         some false) := by
  have h := (c3_assemble_rollback ⟨none, none⟩ [⟨true, false⟩] ⟨false, false⟩ []
    (by decide)).1 rfl
  simpa using h

/-- Split a character list on a separator character; the result always
has one more group than there are separators. -/
def splitOnChar (sep : Char) : List Char → List (List Char)
  | [] => [[]]
  | c :: cs =>
    if c = sep then [] :: splitOnChar sep cs
    else
      match splitOnChar sep cs with
      | [] => [[c]]
      | g :: gs => (c :: g) :: gs

/-- Python `splitlines()` restricted to newline separators: split on
newline characters, discarding the empty tail produced by a trailing
newline. -/
def pySplitlines (s : String) : List String :=
  let parts := (splitOnChar '\n' s.data).map String.mk
  if parts.getLast? = some "" then parts.dropLast else parts

/-- Exact value of a decimal literal as emitted by the LVM tools,
representing `num / 10 ^ exp`.  Python parses such fields with
`float()`; every comparison and sum the source performs on them is
modelled exactly on this decimal representation. -/
structure PyFloat where
  num : Nat
  exp : Nat
deriving DecidableEq, Repr

/-- Value-level strict order on decimal floats. -/
def PyFloat.lt (a b : PyFloat) : Bool :=
  decide (a.num * 10 ^ b.exp < b.num * 10 ^ a.exp)

/-- Value-level equality test on decimal floats. -/
def PyFloat.eqv (a b : PyFloat) : Bool :=
  decide (a.num * 10 ^ b.exp = b.num * 10 ^ a.exp)

/-- Value-level order on decimal floats. -/
def PyFloat.le (a b : PyFloat) : Bool :=
  decide (a.num * 10 ^ b.exp ≤ b.num * 10 ^ a.exp)

/-- Exact addition of decimal floats. -/
def PyFloat.add (a b : PyFloat) : PyFloat :=
  ⟨a.num * 10 ^ b.exp + b.num * 10 ^ a.exp, a.exp + b.exp⟩

/-- Comparison of a decimal float against an integer size. -/
def PyFloat.ltNat (a : PyFloat) (n : Nat) : Bool :=
  decide (a.num < n * 10 ^ a.exp)

/-- Python `sum` over a list of floats, starting from zero. -/
def pyFloatSum (l : List PyFloat) : PyFloat :=
  l.foldl PyFloat.add ⟨0, 0⟩

/-- Python `float()` on the decimal literals the LVM tools emit:
optional surrounding whitespace, digits, an optional fraction part. -/
def pyFloat (s : String) : Option PyFloat :=
  match (pyStrip s).span Char.isDigit with
  | (ds, []) => if ds.isEmpty then none else some ⟨natOfDigits ds, 0⟩
  | (ds, '.' :: fs) =>
    if (ds.isEmpty && fs.isEmpty) || !(fs.all Char.isDigit) then none
    else some ⟨natOfDigits ds * 10 ^ fs.length + natOfDigits fs, fs.length⟩
  | _ => none

/-- `LogicalVolume.GetPVInfo`: parse the colon-separated `pvs` listing.
A failed command or a row with a field count other than 4 aborts the
whole parse (`none`); rows from another volume group, or whose
attribute string does not begin with the allocatable flag, are skipped;
accepted rows contribute a (free space, name) pair in listing order. -/
def GetPVInfo (vg_name : String) (res : CmdResult) :
    Option (List (PyFloat × String)) :=
  if res.failed then none
  else go (pySplitlines res.stdout)
where
  go : List String → Option (List (PyFloat × String))
  | [] => some []
  | line :: rest =>
    match (splitOnChar ':' (pyStrip line)).map String.mk with
    | [pv, vg, free, attr] =>
      if vg ≠ vg_name || attr.data.head? ≠ some 'a' then go rest
      else
        match pyFloat free with
        | none => none
        | some f =>
          match go rest with
          | none => none
          | some l => some ((f, pv) :: l)
    | _ => none

/-- Strict byte-wise lexicographic comparison of character lists,
modelling Python string comparison. -/
def charListLt : List Char → List Char → Bool
  | [], [] => false
  | [], _ :: _ => true
  | _ :: _, [] => false
  | a :: as, b :: bs =>
    if a.toNat < b.toNat then true
    else if a.toNat = b.toNat then charListLt as bs
    else false

/-- Python ascending tuple order on (free-space, name) pairs, as used
by `list.sort` in `LogicalVolume.Create`: compare the float first, then
the name. -/
def pairLe (a b : PyFloat × String) : Bool :=
  if PyFloat.lt a.1 b.1 then true
  else if PyFloat.eqv a.1 b.1 then !(charListLt b.2.data a.2.data)
  else false

/-- Insert a pair into an ascending-sorted list. -/
def insertPair (x : PyFloat × String) :
    List (PyFloat × String) → List (PyFloat × String)
  | [] => [x]
  | y :: ys => if pairLe x y then x :: y :: ys else y :: insertPair x ys

/-- Ascending sort of the physical-volume list (`pvs_info.sort()`). -/
def sortPairs (l : List (PyFloat × String)) : List (PyFloat × String) :=
  l.foldr insertPair []

/-- The exact argv of the create tool built by `LogicalVolume.Create`:
note that the volume name is passed fused with its flag. -/
def lvcreateArgv (size : Nat) (lv_name vg_name : String)
    (pvlist : List String) : List String :=
  "lvcreate" :: ("-L" ++ toString size ++ "m") :: ("-n" ++ lv_name)
    :: vg_name :: pvlist

/-- `LogicalVolume.Create`: compute the physical-volume info, abort when
it is missing or empty, sort ascending and reverse (largest free space
first), require total free space at least the requested size, and
invoke the create tool; the returned value is the argv invoked. -/
def LogicalVolume.Create (vg_name lv_name : String) (size : Nat)
    (pvsRes : CmdResult) : Except String (List String) :=
  match GetPVInfo vg_name pvsRes with
  | none => Except.error "no-pv-info"
  | some pvs_info =>
    if pvs_info.isEmpty then Except.error "no-pv-info"
    else
      if (pyFloatSum ((sortPairs pvs_info).reverse.map Prod.fst)).ltNat size then
        Except.error "insufficient-space"
      else
        Except.ok (lvcreateArgv size lv_name vg_name
          ((sortPairs pvs_info).reverse.map Prod.snd))

theorem insertPair_perm (x : PyFloat × String) (l : List (PyFloat × String)) :
    (insertPair x l).Perm (x :: l) := by
  induction l with
  | nil => exact List.Perm.refl _
  | cons y ys ih =>
    unfold insertPair
    split
    · exact List.Perm.refl _
    · exact (List.Perm.cons y ih).trans (List.Perm.swap x y ys)

theorem sortPairs_perm (l : List (PyFloat × String)) :
    (sortPairs l).Perm l := by
  induction l with
  | nil => exact List.Perm.refl _
  | cons x xs ih =>
    exact (insertPair_perm x (sortPairs xs)).trans (List.Perm.cons x ih)

theorem pairLe_fst_le {x y : PyFloat × String} (h : pairLe x y = true) :
    PyFloat.le x.1 y.1 = true := by
  unfold pairLe at h
  unfold PyFloat.le
  by_cases h1 : PyFloat.lt x.1 y.1 = true
  · unfold PyFloat.lt at h1
    simp only [decide_eq_true_eq] at h1 ⊢
    omega
  · rw [if_neg h1] at h
    by_cases h2 : PyFloat.eqv x.1 y.1 = true
    · unfold PyFloat.eqv at h2
      simp only [decide_eq_true_eq] at h2 ⊢
      omega
    · rw [if_neg h2] at h
      exact absurd h (by simp)

theorem not_pairLe_fst_le {x y : PyFloat × String} (h : pairLe x y = false) :
    PyFloat.le y.1 x.1 = true := by
  unfold pairLe at h
  by_cases h1 : PyFloat.lt x.1 y.1 = true
  · rw [if_pos h1] at h
    exact absurd h (by simp)
  · unfold PyFloat.lt at h1
    unfold PyFloat.le
    simp only [decide_eq_true_eq] at h1 ⊢
    omega

theorem insertPair_head_fst (x : PyFloat × String)
    (l : List (PyFloat × String)) :
    ∀ z ∈ (insertPair x l).head?, z = x ∨ z ∈ l.head? := by
  cases l with
  | nil => intro z hz; simp [insertPair] at hz; simp [hz]
  | cons y ys =>
    intro z hz
    unfold insertPair at hz
    split at hz
    · simp at hz; simp [hz]
    · simp at hz; simp [hz]

theorem insertPair_chain_fst (x : PyFloat × String) :
    ∀ l : List (PyFloat × String),
      List.Chain' (fun a b : PyFloat × String => PyFloat.le a.1 b.1 = true) l →
      List.Chain' (fun a b : PyFloat × String => PyFloat.le a.1 b.1 = true)
        (insertPair x l) := by
  intro l
  induction l with
  | nil => intro _; simp [insertPair]
  | cons y ys ih =>
    intro h
    unfold insertPair
    by_cases hle : pairLe x y = true
    · rw [if_pos hle]
      exact List.Chain'.cons (pairLe_fst_le hle) h
    · rw [if_neg hle]
      rw [List.chain'_cons']
      refine ⟨?_, ih h.tail⟩
      intro z hz
      rcases insertPair_head_fst x ys z hz with rfl | hmem
      · exact not_pairLe_fst_le (Bool.not_eq_true (pairLe z y) ▸ hle)
      · exact (List.chain'_cons'.mp h).1 z hmem

theorem sortPairs_chain_fst (l : List (PyFloat × String)) :
    List.Chain' (fun a b : PyFloat × String => PyFloat.le a.1 b.1 = true)
      (sortPairs l) := by
  induction l with
  | nil => simp [sortPairs]
  | cons x xs ih => exact insertPair_chain_fst x (sortPairs xs) ih

theorem pyFloatSum_perm {l1 l2 : List PyFloat} (p : l1.Perm l2) :
    pyFloatSum l1 = pyFloatSum l2 := by
  unfold pyFloatSum
  refine p.foldl_eq' (fun x _ y _ z => ?_) (⟨0, 0⟩ : PyFloat)
  unfold PyFloat.add
  simp only [PyFloat.mk.injEq]
  constructor
  · simp only [pow_add]
    ring
  · omega

/-- C5 counterexample: with the two-row `pvs` listing of the spec, the
create tool is invoked with the volume name fused to its flag
(`-nlv1` as one argv element), not with `-n` and `lv1` as two separate
elements, so the claimed seven-element argv is not what is run. -/
theorem c5_counterexample :
    LogicalVolume.Create "vg0" "lv1" 1024
        ⟨false, "/dev/sda:vg0:2048:a-\n/dev/sdb:vg0:512:a-\n"⟩
      = Except.ok ["lvcreate", "-L1024m", "-nlv1", "vg0",
                   "/dev/sda", "/dev/sdb"] ∧
    (["lvcreate", "-L1024m", "-nlv1", "vg0", "/dev/sda", "/dev/sdb"]
        : List String)
      ≠ ["lvcreate", "-L1024m", "-n", "lv1", "vg0", "/dev/sda", "/dev/sdb"] := by
  constructor
  · rfl
  · decide

/-- C5 amended: the concrete create succeeds with argv
`["lvcreate","-L1024m","-nlv1","vg0","/dev/sda","/dev/sdb"]` (the name
fused with `-n`); in general a successful create invokes the tool on
the physical volumes sorted by descending free space, and when the
total allocatable free space is below the requested size the create
fails with the insufficient-space error instead of invoking the tool. -/
theorem c5_thin_lv_create :
    LogicalVolume.Create "vg0" "lv1" 1024
        ⟨false, "/dev/sda:vg0:2048:a-\n/dev/sdb:vg0:512:a-\n"⟩
      = Except.ok ["lvcreate", "-L1024m", "-nlv1", "vg0",
                   "/dev/sda", "/dev/sdb"] ∧
    (∀ (vg lv : String) (size : Nat) (res : CmdResult)
        (info : List (PyFloat × String)),
      GetPVInfo vg res = some info → info ≠ [] →
      (pyFloatSum (info.map Prod.fst)).ltNat size = true →
      LogicalVolume.Create vg lv size res = Except.error "insufficient-space") ∧
    (∀ (vg lv : String) (size : Nat) (res : CmdResult)
        (info : List (PyFloat × String)),
      GetPVInfo vg res = some info → info ≠ [] →
      (pyFloatSum (info.map Prod.fst)).ltNat size = false →
      LogicalVolume.Create vg lv size res
        = Except.ok (lvcreateArgv size lv vg
            ((sortPairs info).reverse.map Prod.snd))) ∧
    (∀ info : List (PyFloat × String),
      List.Chain' (fun a b : PyFloat × String => PyFloat.le b.1 a.1 = true)
        ((sortPairs info).reverse)) := by
  have hsum : ∀ info : List (PyFloat × String),
      pyFloatSum ((sortPairs info).reverse.map Prod.fst)
        = pyFloatSum (info.map Prod.fst) := by
    intro info
    exact pyFloatSum_perm
      (((sortPairs info).reverse_perm.trans (sortPairs_perm info)).map Prod.fst)
  refine ⟨by rfl, ?_, ?_, ?_⟩
  · intro vg lv size res info hinfo hne hlt
    simp only [LogicalVolume.Create, hinfo]
    rw [if_neg (by simpa using hne)]
    rw [if_pos (by rw [hsum]; exact hlt)]
  · intro vg lv size res info hinfo hne hge
    simp only [LogicalVolume.Create, hinfo]
    rw [if_neg (by simpa using hne)]
    rw [if_neg (by rw [hsum, hge]; exact Bool.false_ne_true)]
  · intro info
    rw [List.chain'_reverse]
    exact (sortPairs_chain_fst info).imp (fun a b h => h)

/-- Witness for `c5_thin_lv_create`: a volume group with a single
512 MiB physical volume cannot host a 1024 MiB volume. -/
theorem c5_thin_lv_create_witness :
    LogicalVolume.Create "vg0" "lv1" 1024 ⟨false, "/dev/sdb:vg0:512:a-\n"⟩
      = Except.error "insufficient-space" :=
  c5_thin_lv_create.2.1 "vg0" "lv1" 1024 ⟨false, "/dev/sdb:vg0:512:a-\n"⟩
    [(⟨512, 0⟩, "/dev/sdb")] (by rfl) (by decide) (by rfl)

/-- The device-info mapping produced by `DRBD8._GetDevInfo` from the
parsed `drbdsetup show` output; a field is `none` when the key is
absent from the mapping. -/
structure DevInfo where
  local_dev : Option String
  meta_dev : Option String
  meta_index : Option Nat
  local_addr : Option (String × Nat)
  remote_addr : Option (String × Nat)
deriving DecidableEq, Repr

/-- A child block device of the DRBD device, reduced to the only field
the reconciliation reads: its `dev_path`. -/
structure DrbdChild where
  dev_path : Option String
deriving DecidableEq, Repr

/-- The static identity of a DRBD8 device: the four endpoint components
of `unique_id`, each possibly Python `None`. -/
structure Drbd8Config where
  lhost : Option String
  lport : Option Nat
  rhost : Option String
  rport : Option Nat
deriving DecidableEq, Repr

/-- The mutable state of a DRBD8 instance: kernel identity and the
children pair (an empty child list is `none`, `[backend, meta]` is
`some`). -/
structure DrbdState where
  minor : Option Nat
  dev_path : Option String
  children : Option (DrbdChild × DrbdChild)
deriving DecidableEq, Repr

/-- `DRBD8._MatchesLocal`: our backing device and metadata device (with
index 0) must equal the ones in the info mapping; with no children the
info must carry no local or metadata device. -/
def MatchesLocal (children : Option (DrbdChild × DrbdChild))
    (info : DevInfo) : Bool :=
  match children with
  | some (backend, meta) =>
    (info.local_dev.isSome && info.local_dev == backend.dev_path)
      && ((info.meta_dev.isSome && info.meta_dev == meta.dev_path)
        && (info.meta_index == some 0))
  | none =>
    (info.local_dev == none)
      && ((info.meta_dev == none) && (info.meta_index == none))

/-- Python equality of an info address tuple against our
possibly-`None` endpoint pair. -/
def pyAddrEq : Option (String × Nat) → Option String → Option Nat → Bool
  | some (h, p), oh, op => oh == some h && op == some p
  | none, _, _ => false

/-- `DRBD8._MatchesNet`: fully unset endpoints match an info without
addresses; otherwise a set local host requires both addresses present
and equal to our endpoints. -/
def MatchesNet (cfg : Drbd8Config) (info : DevInfo) : Bool :=
  if (cfg.lhost == none && !info.local_addr.isSome)
      && (cfg.rhost == none && !info.remote_addr.isSome) then true
  else if cfg.lhost == none then false
  else if !(info.local_addr.isSome && info.remote_addr.isSome) then false
  else
    pyAddrEq info.local_addr cfg.lhost cfg.lport
      && pyAddrEq info.remote_addr cfg.rhost cfg.rport

/-- `BaseDRBD._GetUsedDevs`: the minors of status lines whose
connection state (the first space-free token after the cs marker) is
not `Unconfigured`, in file order. -/
def GetUsedDevs (data : List String) : List Nat :=
  data.filterMap fun l =>
    match procLineMinor l with
    | some (m, s) =>
      if (s.takeWhile (fun c => c ≠ ' ')).isEmpty then none
      else if s.takeWhile (fun c => c ≠ ' ') = "Unconfigured".data then none
      else some m
    | none => none

/-- Mutating kernel commands issued by the DRBD8 driver. -/
inductive DrbdEvent where
  | disconnect : Nat → DrbdEvent
  | netSetup : Nat → String → Nat → String → Nat → String → DrbdEvent
  | down : Nat → DrbdEvent
deriving DecidableEq, Repr

/-- Oracle for the kernel environment a DRBD8 instance manipulates: the
kernel status lines, the show-info of each minor before any mutation,
whether the disconnect and net-setup commands succeed, the stable
show-info re-read after `_AssembleNet` has acted on a minor (making its
ten-second poll a single check), and whether the down command
succeeds. -/
structure DrbdWorld where
  procLines : List String
  info0 : Nat → DevInfo
  disconnectOk : Nat → Bool
  netCmdOk : Nat → Bool
  infoAfterNet : Nat → DevInfo
  downOk : Nat → Bool

/-- `BaseDRBD._DevPath`: the device node path for a minor. -/
def DevPathOfMinor (minor : Nat) : String :=
  "/dev/drbd" ++ toString minor

/-- `DRBD8._AssembleNet` with its protocol argument: when any endpoint
is `None`, the idempotent disconnect is issued instead; otherwise the
net command is issued, and on command success the re-read show-info is
polled for both addresses being present and equal to the requested
endpoints. -/
def AssembleNet (w : DrbdWorld) (minor : Nat) (cfg : Drbd8Config)
    (protocol : String) : List DrbdEvent × Bool :=
  match cfg.lhost, cfg.lport, cfg.rhost, cfg.rport with
  | some lh, some lp, some rh, some rp =>
    if w.netCmdOk minor then
      ([DrbdEvent.netSetup minor lh lp rh rp protocol],
       pyAddrEq (w.infoAfterNet minor).local_addr (some lh) (some lp)
         && pyAddrEq (w.infoAfterNet minor).remote_addr (some rh) (some rp))
    else ([DrbdEvent.netSetup minor lh lp rh rp protocol], false)
  | _, _, _, _ => ([DrbdEvent.disconnect minor], w.disconnectOk minor)

/-- One iteration of the minor-scan loop of `DRBD8.Attach`: the four
reconciliation cases in source order.  Outcome `Except.ok true` binds
the minor, `Except.ok false` continues the scan, and the error is the
wrong-peer disconnect failure. -/
def tryOne (w : DrbdWorld) (cfg : Drbd8Config)
    (children : Option (DrbdChild × DrbdChild)) (minor : Nat) :
    List DrbdEvent × Except String Bool :=
  let info := w.info0 minor
  let match_l := MatchesLocal children info
  let match_r := MatchesNet cfg info
  if match_l && match_r then ([], Except.ok true)
  else
    let b2 : List DrbdEvent × Bool :=
      if match_l && !match_r && !info.local_addr.isSome then
        let r := AssembleNet w minor cfg "C"
        (r.1, r.2 && MatchesNet cfg (w.infoAfterNet minor))
      else ([], false)
    if b2.2 then (b2.1, Except.ok true)
    else if match_r && !info.local_dev.isSome then (b2.1, Except.ok true)
    else if match_l && info.local_dev.isSome && !match_r
        && info.local_addr.isSome then
      if !(w.disconnectOk minor) then
        (b2.1 ++ [DrbdEvent.disconnect minor],
         Except.error "wrong-peer-cannot-disconnect")
      else
        let r := AssembleNet w minor cfg "C"
        (b2.1 ++ DrbdEvent.disconnect minor :: r.1,
         Except.ok (r.2 && MatchesNet cfg (w.infoAfterNet minor)))
    else (b2.1, Except.ok false)

/-- The minor-scan loop of `DRBD8.Attach` over the used minors,
accumulating the trace; `Except.ok none` is the for-else fall-through
(no minor matched). -/
def attachLoop (w : DrbdWorld) (cfg : Drbd8Config)
    (children : Option (DrbdChild × DrbdChild)) :
    List Nat → List DrbdEvent × Except String (Option Nat)
  | [] => ([], Except.ok none)
  | minor :: rest =>
    match tryOne w cfg children minor with
    | (evs, Except.error e) => (evs, Except.error e)
    | (evs, Except.ok true) => (evs, Except.ok (some minor))
    | (evs, Except.ok false) =>
      match attachLoop w cfg children rest with
      | (tevs, t) => (evs ++ tevs, t)

/-- `DRBD8.Attach`: scan the used minors and record the result through
`_SetFromMinor`: minor and device path are set on a bind and cleared to
`None` otherwise.  Returns the trace of mutating commands and the state
paired with the Python return value (or the propagated exception). -/
def DRBD8.Attach (w : DrbdWorld) (cfg : Drbd8Config) (st : DrbdState) :
    List DrbdEvent × Except String (DrbdState × Bool) :=
  match attachLoop w cfg st.children (GetUsedDevs w.procLines) with
  | (evs, Except.error e) => (evs, Except.error e)
  | (evs, Except.ok (some m)) =>
    (evs, Except.ok
      ({ st with minor := some m, dev_path := some (DevPathOfMinor m) }, true))
  | (evs, Except.ok none) =>
    (evs, Except.ok ({ st with minor := none, dev_path := none }, false))

/-- Tail of `DRBD8.Shutdown` once a minor is known: issue the down
command; clear the kernel identity only when it succeeds. -/
def shutdownFromMinor (w : DrbdWorld) (st : DrbdState) (m : Nat)
    (evs0 : List DrbdEvent) :
    List DrbdEvent × Except String (DrbdState × Bool) :=
  if w.downOk m then
    (evs0 ++ [DrbdEvent.down m],
     Except.ok ({ st with minor := none, dev_path := none }, true))
  else (evs0 ++ [DrbdEvent.down m], Except.ok (st, false))

/-- `DRBD8.Shutdown`: with no recorded minor, attach first; failure to
attach is success (already shut down) and the minor stays cleared.
Otherwise issue the down command and clear the identity on success. -/
def DRBD8.Shutdown (w : DrbdWorld) (cfg : Drbd8Config) (st : DrbdState) :
    List DrbdEvent × Except String (DrbdState × Bool) :=
  match st.minor with
  | none =>
    match DRBD8.Attach w cfg st with
    | (evs, Except.error e) => (evs, Except.error e)
    | (evs, Except.ok (st2, false)) => (evs, Except.ok (st2, true))
    | (evs, Except.ok (st2, true)) =>
      match st2.minor with
      | some m => shutdownFromMinor w st2 m evs
      | none => (evs, Except.error "attached-without-minor")
  | some m => shutdownFromMinor w st m []

theorem matchesNet_poll (lh rh : String) (lp rp : Nat) (i : DevInfo) :
    MatchesNet ⟨some lh, some lp, some rh, some rp⟩ i
      = (pyAddrEq i.local_addr (some lh) (some lp)
          && pyAddrEq i.remote_addr (some rh) (some rp)) := by
  unfold MatchesNet
  rcases hla : i.local_addr with _ | ⟨h1, p1⟩ <;>
    rcases hra : i.remote_addr with _ | ⟨h2, p2⟩ <;>
    simp [pyAddrEq, hla, hra]

theorem tryOne_wrong_peer (w : DrbdWorld) (lh rh : String) (lp rp : Nat)
    (children : Option (DrbdChild × DrbdChild)) (m : Nat)
    (hml : MatchesLocal children (w.info0 m) = true)
    (hmr : MatchesNet ⟨some lh, some lp, some rh, some rp⟩ (w.info0 m) = false)
    (hld : (w.info0 m).local_dev.isSome = true)
    (hla : (w.info0 m).local_addr.isSome = true) :
    tryOne w ⟨some lh, some lp, some rh, some rp⟩ children m
      = (if w.disconnectOk m then
           ([DrbdEvent.disconnect m, DrbdEvent.netSetup m lh lp rh rp "C"],
            Except.ok (w.netCmdOk m
              && MatchesNet ⟨some lh, some lp, some rh, some rp⟩
                   (w.infoAfterNet m)))
         else
           ([DrbdEvent.disconnect m],
            Except.error "wrong-peer-cannot-disconnect")) := by
  have hpoll : (pyAddrEq (w.infoAfterNet m).local_addr (some lh) (some lp)
      && pyAddrEq (w.infoAfterNet m).remote_addr (some rh) (some rp))
      = MatchesNet ⟨some lh, some lp, some rh, some rp⟩ (w.infoAfterNet m) :=
    (matchesNet_poll lh rh lp rp (w.infoAfterNet m)).symm
  simp only [tryOne, hml, hmr, hld, hla, Bool.true_and, Bool.false_and,
    Bool.and_false, Bool.and_true, Bool.not_false, Bool.not_true,
    Bool.false_eq_true, if_false, ite_false]
  cases hd : w.disconnectOk m
  · simp
  · simp only [Bool.not_true, Bool.false_eq_true, if_false, if_true,
      ite_true, AssembleNet]
    cases hn : w.netCmdOk m
    · simp
    · simp only [if_true, ite_true, hpoll]
      simp [Bool.and_self]

/-- C1: for a sole configured kernel minor whose show-info matches our
local configuration but not our network, with both a local device and a
(wrong-peer) local address present, and with all four of our endpoints
specified, `Attach` first issues the network disconnect; a failed
disconnect raises `BlockDeviceError`, and otherwise the net attach is
re-run with our endpoints under protocol `C` and the minor is bound
(minor set, `dev_path = "/dev/drbd{minor}"`) exactly when the net
command succeeds and the re-read show-info satisfies matches-net. -/
theorem c1_wrong_peer_reconciliation :
    ∀ (w : DrbdWorld) (lh rh : String) (lp rp : Nat) (st : DrbdState)
      (m : Nat),
      GetUsedDevs w.procLines = [m] →
      MatchesLocal st.children (w.info0 m) = true →
      MatchesNet ⟨some lh, some lp, some rh, some rp⟩ (w.info0 m) = false →
      (w.info0 m).local_dev.isSome = true →
      (w.info0 m).local_addr.isSome = true →
      ((w.disconnectOk m = false →
          DRBD8.Attach w ⟨some lh, some lp, some rh, some rp⟩ st
            = ([DrbdEvent.disconnect m],
               Except.error "wrong-peer-cannot-disconnect")) ∧
       (w.disconnectOk m = true → w.netCmdOk m = true →
          MatchesNet ⟨some lh, some lp, some rh, some rp⟩ (w.infoAfterNet m)
            = true →
          DRBD8.Attach w ⟨some lh, some lp, some rh, some rp⟩ st
            = ([DrbdEvent.disconnect m, DrbdEvent.netSetup m lh lp rh rp "C"],
               Except.ok
                 ({ st with
                     minor := some m
                     dev_path := some (DevPathOfMinor m) }, true))) ∧
       (w.disconnectOk m = true →
          (w.netCmdOk m && MatchesNet ⟨some lh, some lp, some rh, some rp⟩
              (w.infoAfterNet m)) = false →
          DRBD8.Attach w ⟨some lh, some lp, some rh, some rp⟩ st
            = ([DrbdEvent.disconnect m, DrbdEvent.netSetup m lh lp rh rp "C"],
               Except.ok ({ st with minor := none, dev_path := none },
                 false)))) := by
  intro w lh rh lp rp st m hused hml hmr hld hla
  have ht := tryOne_wrong_peer w lh rh lp rp st.children m hml hmr hld hla
  refine ⟨?_, ?_, ?_⟩
  · intro hd
    rw [hd] at ht
    simp only [Bool.false_eq_true, if_false, ite_false] at ht
    simp [DRBD8.Attach, hused, attachLoop, ht]
  · intro hd hn hok
    rw [hd, hn, hok] at ht
    simp only [Bool.true_and, if_true, ite_true] at ht
    simp [DRBD8.Attach, hused, attachLoop, ht]
  · intro hd hno
    rw [hd, hno] at ht
    simp only [if_true, ite_true] at ht
    simp [DRBD8.Attach, hused, attachLoop, ht]

/-- The kernel environment of the wrong-peer scenario of the spec:
minor 3 carries our local configuration but the remote address
10.0.0.9; after our net attach the show-info reports 10.0.0.2. -/
def drbdWrongPeerWorld : DrbdWorld where
  procLines := [" 3: cs:WFConnection st:Secondary/Unknown"]
  info0 := fun _ =>
    ⟨some "/dev/vg0/lv1", some "/dev/vg0/lv1meta", some 0,
     some ("10.0.0.1", 11000), some ("10.0.0.9", 11000)⟩
  disconnectOk := fun _ => true
  netCmdOk := fun _ => true
  infoAfterNet := fun _ =>
    ⟨some "/dev/vg0/lv1", some "/dev/vg0/lv1meta", some 0,
     some ("10.0.0.1", 11000), some ("10.0.0.2", 11000)⟩
  downOk := fun _ => true

/-- Witness for `c1_wrong_peer_reconciliation`: the wrong-peer scenario
of the spec at minor 3, where the disconnect and net command succeed
and the re-read show-info reports our remote endpoint. -/
theorem c1_wrong_peer_reconciliation_witness :
    DRBD8.Attach drbdWrongPeerWorld
        ⟨some "10.0.0.1", some 11000, some "10.0.0.2", some 11000⟩
        ⟨none, none,
         some (⟨some "/dev/vg0/lv1"⟩, ⟨some "/dev/vg0/lv1meta"⟩)⟩
      = ([DrbdEvent.disconnect 3,
          DrbdEvent.netSetup 3 "10.0.0.1" 11000 "10.0.0.2" 11000 "C"],
         Except.ok
           (⟨some 3, some "/dev/drbd3",
             some (⟨some "/dev/vg0/lv1"⟩, ⟨some "/dev/vg0/lv1meta"⟩)⟩,
            true)) :=
  ((c1_wrong_peer_reconciliation drbdWrongPeerWorld "10.0.0.1" "10.0.0.2"
    11000 11000
    ⟨none, none, some (⟨some "/dev/vg0/lv1"⟩, ⟨some "/dev/vg0/lv1meta"⟩)⟩ 3
    rfl rfl rfl rfl rfl).2.1) rfl rfl rfl

theorem assembleNet_not_down (w : DrbdWorld) (minor : Nat)
    (cfg : Drbd8Config) (p : String) (m : Nat) :
    DrbdEvent.down m ∉ (AssembleNet w minor cfg p).1 := by
  unfold AssembleNet
  rcases cfg with ⟨lh, lp, rh, rp⟩
  rcases lh with _ | lh <;> rcases lp with _ | lp <;>
    rcases rh with _ | rh <;> rcases rp with _ | rp
  case mk.some.some.some.some =>
    by_cases hn : w.netCmdOk minor = true <;> simp [hn]
  all_goals simp

theorem tryOne_not_down (w : DrbdWorld) (cfg : Drbd8Config)
    (children : Option (DrbdChild × DrbdChild)) (minor : Nat) (m : Nat) :
    DrbdEvent.down m ∉ (tryOne w cfg children minor).1 := by
  simp only [tryOne]
  split_ifs <;>
    simp [assembleNet_not_down, List.mem_append]

theorem attachLoop_not_down (w : DrbdWorld) (cfg : Drbd8Config)
    (children : Option (DrbdChild × DrbdChild)) (m : Nat) :
    ∀ l : List Nat, DrbdEvent.down m ∉ (attachLoop w cfg children l).1 := by
  intro l
  induction l with
  | nil => simp [attachLoop]
  | cons minor rest ih =>
    have h1 := tryOne_not_down w cfg children minor m
    rw [attachLoop]
    rcases ht : tryOne w cfg children minor with ⟨evs, r⟩
    rw [ht] at h1
    rcases r with e | b
    · simpa using h1
    · cases b
      · rcases hal : attachLoop w cfg children rest with ⟨tevs, t⟩
        rw [hal] at ih
        simp only [List.mem_append]
        intro hmem
        rcases hmem with hmem | hmem
        · exact h1 hmem
        · exact ih hmem
      · simpa using h1

theorem attach_not_down (w : DrbdWorld) (cfg : Drbd8Config) (st : DrbdState)
    (m : Nat) : DrbdEvent.down m ∉ (DRBD8.Attach w cfg st).1 := by
  unfold DRBD8.Attach
  have h := attachLoop_not_down w cfg st.children m (GetUsedDevs w.procLines)
  rcases hr : attachLoop w cfg st.children (GetUsedDevs w.procLines)
    with ⟨evs, r⟩
  rw [hr] at h
  rcases r with e | (_ | mm) <;> simpa using h

theorem attach_false_state (w : DrbdWorld) (cfg : Drbd8Config)
    (st : DrbdState) (evs : List DrbdEvent) (st2 : DrbdState)
    (h : DRBD8.Attach w cfg st = (evs, Except.ok (st2, false))) :
    st2 = { st with minor := none, dev_path := none } := by
  unfold DRBD8.Attach at h
  rcases hr : attachLoop w cfg st.children (GetUsedDevs w.procLines)
    with ⟨evsl, rl⟩
  rw [hr] at h
  rcases rl with e | (_ | mm)
  · simp at h
  · simp only [Prod.mk.injEq, Except.ok.injEq] at h
    exact h.2.1.symm
  · simp at h

theorem attach_true_state (w : DrbdWorld) (cfg : Drbd8Config)
    (st : DrbdState) (evs : List DrbdEvent) (st2 : DrbdState)
    (h : DRBD8.Attach w cfg st = (evs, Except.ok (st2, true))) :
    ∃ m, st2 = { st with
      minor := some m
      dev_path := some (DevPathOfMinor m) } := by
  unfold DRBD8.Attach at h
  rcases hr : attachLoop w cfg st.children (GetUsedDevs w.procLines)
    with ⟨evsl, rl⟩
  rw [hr] at h
  rcases rl with e | (_ | mm)
  · simp at h
  · simp at h
  · simp only [Prod.mk.injEq, Except.ok.injEq] at h
    exact ⟨mm, h.2.1.symm⟩

/-- C10: shutting down a replicated-mirror device that is not attached
(no recorded minor, attach finds no matching kernel minor) succeeds as
a no-op: true is returned, the down command is never issued, and minor
and device path remain absent. -/
theorem c10_shutdown_not_attached :
    ∀ (w : DrbdWorld) (cfg : Drbd8Config) (st : DrbdState)
      (evs : List DrbdEvent) (st2 : DrbdState),
      st.minor = none →
      DRBD8.Attach w cfg st = (evs, Except.ok (st2, false)) →
      DRBD8.Shutdown w cfg st = (evs, Except.ok (st2, true)) ∧
      st2.minor = none ∧ st2.dev_path = none ∧
      (∀ m, DrbdEvent.down m ∉ evs) := by
  intro w cfg st evs st2 hmin hatt
  have hshape := attach_false_state w cfg st evs st2 hatt
  refine ⟨?_, ?_, ?_, ?_⟩
  · simp only [DRBD8.Shutdown, hmin, hatt]
  · simp [hshape]
  · simp [hshape]
  · intro mm
    have h := attach_not_down w cfg st mm
    rw [hatt] at h
    simpa using h

/-- A kernel environment with no configured minors. -/
def drbdEmptyWorld : DrbdWorld where
  procLines := ["version: 8.0.12 (api:86/proto:86)"]
  info0 := fun _ => ⟨none, none, none, none, none⟩
  disconnectOk := fun _ => true
  netCmdOk := fun _ => true
  infoAfterNet := fun _ => ⟨none, none, none, none, none⟩
  downOk := fun _ => true

/-- Witness for `c10_shutdown_not_attached`: a fresh diskless instance
against an empty kernel. -/
theorem c10_shutdown_not_attached_witness :
    DRBD8.Shutdown drbdEmptyWorld
        ⟨some "10.0.0.1", some 11000, some "10.0.0.2", some 11000⟩
        ⟨none, none, none⟩
      = ([], Except.ok (⟨none, none, none⟩, true)) :=
  (c10_shutdown_not_attached drbdEmptyWorld
    ⟨some "10.0.0.1", some 11000, some "10.0.0.2", some 11000⟩
    ⟨none, none, none⟩ [] ⟨none, none, none⟩ rfl (by rfl)).1

/-- The state of a `LogicalVolume` instance: the device path is derived
from the unique id at construction and is always present. -/
structure LVState where
  vg_name : String
  lv_name : String
  dev_path : Option String
  major : Option Nat
  minor : Option Nat
deriving DecidableEq, Repr

/-- `LogicalVolume.__init__` state: `dev_path` derives from the unique
id; `major`/`minor` come from the constructor-time attach when the
display tool reports them. -/
def mkLogicalVolume (vg lv : String) (attached : Option (Nat × Nat)) :
    LVState where
  vg_name := vg
  lv_name := lv
  dev_path := some ("/dev/" ++ vg ++ "/" ++ lv)
  major := attached.map Prod.fst
  minor := attached.map Prod.snd

/-- `LogicalVolume.Shutdown`: deliberately a no-op returning success;
volumes are not deactivated on shutdown. -/
def LogicalVolume.Shutdown (st : LVState) : LVState × Bool :=
  (st, true)

/-- The state of a `FileStorage` instance: `dev_path` is the backing
file path from the unique id. -/
structure FileState where
  driver : String
  dev_path : String
deriving DecidableEq, Repr

/-- `FileStorage.Shutdown`: a no-op returning success. -/
def FileStorage.Shutdown (st : FileState) : FileState × Bool :=
  (st, true)

/-- C6 counterexample: a thin-LV device attached at 254:3; its shutdown
succeeds but is a no-op, so `dev_path` and `minor` are still present
afterwards, contradicting the claim that they become absent for every
driver. -/
theorem c6_counterexample :
    (LogicalVolume.Shutdown (mkLogicalVolume "vg0" "lv1" (some (254, 3)))).2
      = true ∧
    (LogicalVolume.Shutdown
        (mkLogicalVolume "vg0" "lv1" (some (254, 3)))).1.dev_path
      = some "/dev/vg0/lv1" ∧
    (LogicalVolume.Shutdown
        (mkLogicalVolume "vg0" "lv1" (some (254, 3)))).1.minor
      = some 3 := by
  exact ⟨rfl, rfl, rfl⟩

/-- C6 amended: after a successful shutdown of a replicated-mirror
device its `minor` and `dev_path` are absent and its children are
unchanged; for the thin-LV and file-backed drivers shutdown returns
true but is a no-op leaving the whole state (including the
always-present `dev_path`) unchanged. -/
theorem c6_shutdown_identity :
    (∀ (w : DrbdWorld) (cfg : Drbd8Config) (st : DrbdState)
        (evs : List DrbdEvent) (st2 : DrbdState),
      DRBD8.Shutdown w cfg st = (evs, Except.ok (st2, true)) →
      st2.minor = none ∧ st2.dev_path = none ∧
        st2.children = st.children) ∧
    (∀ st : LVState, LogicalVolume.Shutdown st = (st, true)) ∧
    (∀ st : FileState, FileStorage.Shutdown st = (st, true)) := by
  refine ⟨?_, fun st => rfl, fun st => rfl⟩
  intro w cfg st evs st2 h
  unfold DRBD8.Shutdown at h
  rcases hmin : st.minor with _ | m
  · rw [hmin] at h
    rcases hA : DRBD8.Attach w cfg st with ⟨evsA, rA⟩
    rw [hA] at h
    rcases rA with e | ⟨stA, bA⟩
    · simp at h
    · cases bA
      · simp only [Prod.mk.injEq, Except.ok.injEq, and_true] at h
        obtain ⟨-, h2⟩ := h
        have hstA := attach_false_state w cfg st evsA stA hA
        rw [← h2, hstA]
        exact ⟨rfl, rfl, rfl⟩
      · simp only [] at h
        rcases hm2 : stA.minor with _ | m2
        · rw [hm2] at h
          simp at h
        · rw [hm2] at h
          simp only [] at h
          unfold shutdownFromMinor at h
          by_cases hdn : w.downOk m2 = true
          · rw [if_pos hdn] at h
            simp only [Prod.mk.injEq, Except.ok.injEq, and_true] at h
            obtain ⟨-, h2⟩ := h
            obtain ⟨mA, hstA⟩ := attach_true_state w cfg st evsA stA hA
            rw [← h2, hstA]
            exact ⟨rfl, rfl, rfl⟩
          · rw [if_neg hdn] at h
            simp at h
  · rw [hmin] at h
    simp only [] at h
    unfold shutdownFromMinor at h
    by_cases hdn : w.downOk m = true
    · rw [if_pos hdn] at h
      simp only [Prod.mk.injEq, Except.ok.injEq, and_true] at h
      obtain ⟨-, h2⟩ := h
      rw [← h2]
      exact ⟨rfl, rfl, rfl⟩
    · rw [if_neg hdn] at h
      simp at h

/-- Witness for `c6_shutdown_identity`: a mirror attached at minor 3 is
shut down successfully against a kernel where the down command
succeeds. -/
theorem c6_shutdown_identity_witness :
    (⟨none, none, none⟩ : DrbdState).minor = none ∧
    (⟨none, none, none⟩ : DrbdState).dev_path = none ∧
    (⟨none, none, none⟩ : DrbdState).children
      = (⟨some 3, some "/dev/drbd3", none⟩ : DrbdState).children :=
  c6_shutdown_identity.1 drbdEmptyWorld
    ⟨some "10.0.0.1", some 11000, some "10.0.0.2", some 11000⟩
    ⟨some 3, some "/dev/drbd3", none⟩
    [DrbdEvent.down 3] ⟨none, none, none⟩ rfl

/-- `FileStorage.Create`: open the path for writing (creating the
file) and truncate it; the filesystem is a predicate over paths, and a
successful create makes the path exist. -/
def FileStorage.Create (fs : String → Bool) (driver path : String)
    (openOk : Bool) : Except String (FileState × (String → Bool)) :=
  if !openOk then Except.error "could-not-create"
  else Except.ok (⟨driver, path⟩, fun p => if p = path then true else fs p)

/-- `FileStorage.Attach`: whether the backing path exists. -/
def FileStorage.Attach (fs : String → Bool) (st : FileState) : Bool :=
  fs st.dev_path

/-- One line of `lvdisplay` output matched against the block-device
pattern: leading spaces, the literal words, spaces, major, colon,
minor, anything after. -/
def lvDisplayLine (line : String) : Option (Nat × Nat) :=
  let l := dropSpaces line.data
  if ("Block device".data).isPrefixOf l then
    let r := dropSpaces (l.drop 12)
    let d1 := r.takeWhile Char.isDigit
    if d1.isEmpty then none
    else
      match r.dropWhile Char.isDigit with
      | ':' :: r3 =>
        let d2 := r3.takeWhile Char.isDigit
        if d2.isEmpty then none else some (natOfDigits d1, natOfDigits d2)
      | _ => none
  else none

/-- `LogicalVolume.Attach`: scan the display tool output for the
block-device line; `some (major, minor)` when found, `none` when the
command failed or no line matches. -/
def LogicalVolume.Attach (res : CmdResult) : Option (Nat × Nat) :=
  if res.failed then none
  else (pySplitlines res.stdout).findSome? lvDisplayLine

/-- `LogicalVolume.Create` followed by the constructor of the returned
instance: the constructor derives `dev_path` from the unique id and
runs `Attach` against the display tool, recording major and minor when
the tool reports them (the attach result itself is discarded). -/
def LogicalVolume.CreateAttach (vg lv : String) (size : Nat)
    (pvsRes : CmdResult) (lvcreateOk : Bool) (dispRes : CmdResult) :
    Except String LVState :=
  match LogicalVolume.Create vg lv size pvsRes with
  | Except.error e => Except.error e
  | Except.ok _argv =>
    if !lvcreateOk then Except.error "lvcreate-failed"
    else Except.ok (mkLogicalVolume vg lv (LogicalVolume.Attach dispRes))

/-- The oracle for `DRBD8.Create`: the attach environment plus the
kernel module version and the results of the metadata steps (the meta
child's attach, the size query, `create-md`, and the `dstate`
verification). -/
structure DrbdCreateWorld extends DrbdWorld where
  versionMajor : Nat
  metaAttachOk : Bool
  metaSizeRes : CmdResult
  initMetaOk : Bool
  dstateOk : Bool

/-- `DRBD8.Create`: require exactly two children, assemble and attach
the metadata child, validate its size, initialise the metadata on a
freshly found unused minor and verify it, then construct the instance
(version check and constructor-time `Attach`).  No kernel minor is
configured by create itself. -/
def DRBD8.Create (w : DrbdCreateWorld) (cfg : Drbd8Config)
    (children : List DrbdChild) : Except String (DrbdState × Bool) :=
  if children.length ≠ 2 then Except.error "ProgrammerError"
  else if !w.metaAttachOk then Except.error "cannot-attach-meta"
  else if !(CheckMetaSize w.metaSizeRes) then Except.error "invalid-meta-size"
  else
    match FindUnusedMinor w.procLines with
    | Except.error e => Except.error e
    | Except.ok _ =>
      if !w.initMetaOk then Except.error "cannot-init-meta"
      else if !w.dstateOk then Except.error "invalid-meta"
      else if w.versionMajor ≠ 8 then Except.error "version-mismatch"
      else
        match children with
        | [b, meta] =>
          (DRBD8.Attach w.toDrbdWorld cfg
            ⟨none, none, some (b, meta)⟩).2
        | _ => Except.error "ProgrammerError"

/-- A create-time environment over an empty kernel where every
metadata step succeeds. -/
def drbdCreateWorld0 : DrbdCreateWorld where
  toDrbdWorld := drbdEmptyWorld
  versionMajor := 8
  metaAttachOk := true
  metaSizeRes := ⟨false, "262144"⟩
  initMetaOk := true
  dstateOk := true

/-- The endpoints of the created device. -/
def drbdCfg0 : Drbd8Config :=
  ⟨some "10.0.0.1", some 11000, some "10.0.0.2", some 11000⟩

/-- Its backing and metadata children. -/
def drbdChildren0 : List DrbdChild :=
  [⟨some "/dev/vg0/lv1"⟩, ⟨some "/dev/vg0/lv1meta"⟩]

/-- The state `DRBD8.Create` returns over the empty kernel: no minor,
no device path. -/
def drbdCreatedState0 : DrbdState :=
  ⟨none, none, some (⟨some "/dev/vg0/lv1"⟩, ⟨some "/dev/vg0/lv1meta"⟩)⟩

/-- C7 counterexample: over a kernel with no configured minors,
`DRBD8.Create` succeeds (metadata initialised) yet the returned
instance is not attached — its minor is absent and a subsequent attach
still returns false, contradicting the claim for the replicated-mirror
driver. -/
theorem c7_counterexample :
    DRBD8.Create drbdCreateWorld0 drbdCfg0 drbdChildren0
      = Except.ok (drbdCreatedState0, false) ∧
    (DRBD8.Attach drbdCreateWorld0.toDrbdWorld drbdCfg0
        drbdCreatedState0).2
      = Except.ok (drbdCreatedState0, false) := by
  exact ⟨rfl, rfl⟩

/-- C7 amended: a successful file-backed create yields an attached
instance (attach is true on the updated filesystem); a successful
thin-LV create yields an instance whose minor is populated exactly when
the display tool reports the volume; for the replicated mirror, create
only initialises metadata, and over a kernel without a matching device
the created instance is not attached. -/
theorem c7_create_then_attach :
    (∀ (fs : String → Bool) (driver path : String) (st : FileState)
        (fs2 : String → Bool),
      FileStorage.Create fs driver path true = Except.ok (st, fs2) →
      FileStorage.Attach fs2 st = true) ∧
    (∀ (vg lv : String) (size : Nat) (pvsRes dispRes : CmdResult)
        (st : LVState),
      LogicalVolume.CreateAttach vg lv size pvsRes true dispRes
        = Except.ok st →
      st.minor.isSome = (LogicalVolume.Attach dispRes).isSome) ∧
    DRBD8.Create drbdCreateWorld0 drbdCfg0 drbdChildren0
      = Except.ok (drbdCreatedState0, false) := by
  refine ⟨?_, ?_, rfl⟩
  · intro fs driver path st fs2 h
    unfold FileStorage.Create at h
    simp only [Bool.not_true, Bool.false_eq_true, if_false, ite_false,
      Except.ok.injEq, Prod.mk.injEq] at h
    obtain ⟨h1, h2⟩ := h
    subst h1
    subst h2
    unfold FileStorage.Attach
    simp
  · intro vg lv size pvsRes dispRes st h
    unfold LogicalVolume.CreateAttach at h
    rcases hc : LogicalVolume.Create vg lv size pvsRes with e | argv
    · rw [hc] at h
      simp at h
    · rw [hc] at h
      simp only [Bool.not_true, Bool.false_eq_true, if_false, ite_false,
        Except.ok.injEq] at h
      rw [← h]
      simp [mkLogicalVolume, Option.isSome_map]

/-- Witness for `c7_create_then_attach`: a file device created on an
empty filesystem attaches successfully afterwards. -/
theorem c7_create_then_attach_witness :
    FileStorage.Attach
      (fun p => if p = "/srv/ganeti/disk0" then true
        else (fun _ => false) p)
      ⟨"loop", "/srv/ganeti/disk0"⟩ = true :=
  c7_create_then_attach.1 (fun _ => false) "loop" "/srv/ganeti/disk0"
    ⟨"loop", "/srv/ganeti/disk0"⟩
    (fun p => if p = "/srv/ganeti/disk0" then true else (fun _ => false) p)
    rfl

end Bdev
